import Mathlib

/-
  Shallow embedding of flask_rest_jsonapi/resource.py: the resource dispatch
  state machine (Resource.dispatch_request), the detail/list verbs and the
  relationship mutation verbs, together with the external capabilities they
  use (schema load/dump, data layer calls) passed in as explicit parameters.
-/

namespace FlaskRestJsonApi

/-- JSON values as the resource layer manipulates them (Python dicts keep
insertion order, so objects are association lists). -/
inductive Json where
  | null : Json
  | bool (b : Bool) : Json
  | num (n : Int) : Json
  | str (s : String) : Json
  | arr (elems : List Json) : Json
  | obj (fields : List (String × Json)) : Json
deriving Repr

/-- Association-list lookup, first binding wins (Python dict lookup). -/
def Json.lookupField : List (String × Json) → String → Option Json
  | [], _ => none
  | (k, v) :: rest, key => if k = key then some v else Json.lookupField rest key

/-- `d.get(key)` on a dict; `none` on every non-dict. -/
def Json.get? : Json → String → Option Json
  | .obj fields, key => Json.lookupField fields key
  | _, _ => none

/-- Key membership test on a dict. -/
def Json.hasKey (j : Json) (key : String) : Bool := (j.get? key).isSome

/-- `d[key] = v` on an association list: replace in place, append if absent
(Python dict assignment keeps the position of an existing key). -/
def Json.setField : List (String × Json) → String → Json → List (String × Json)
  | [], key, v => [(key, v)]
  | (k, w) :: rest, key, v =>
      if k = key then (k, v) :: rest else (k, w) :: Json.setField rest key v

/-- `d[key] = v` on a Json value; non-dicts are returned unchanged. -/
def Json.set : Json → String → Json → Json
  | .obj fields, key, v => .obj (Json.setField fields key v)
  | j, _, _ => j

mutual

/-- Model of `json.dumps` on the embedded values; the exact textual form only
feeds the content hash, which is itself a parameter. -/
def Json.encode : Json → String
  | .null => "null"
  | .bool true => "true"
  | .bool false => "false"
  | .num n => toString n
  | .str s => "\x22" ++ s ++ "\x22"
  | .arr elems => "[" ++ Json.encodeList elems ++ "]"
  | .obj fields => "\x7b" ++ Json.encodeFields fields ++ "\x7d"

def Json.encodeList : List Json → String
  | [] => ""
  | [j] => Json.encode j
  | j :: rest => Json.encode j ++ ", " ++ Json.encodeList rest

def Json.encodeFields : List (String × Json) → String
  | [] => ""
  | [(k, v)] => "\x22" ++ k ++ "\x22: " ++ Json.encode v
  | (k, v) :: rest => "\x22" ++ k ++ "\x22: " ++ Json.encode v ++ ", " ++ Json.encodeFields rest

end

/-- Python truthiness of a JSON value (`if errors:`). -/
def Json.truthy : Json → Bool
  | .null => false
  | .bool b => b
  | .num n => n != 0
  | .str s => s != ""
  | .arr elems => !elems.isEmpty
  | .obj fields => !fields.isEmpty

/-- Is the value a dict (`isinstance(x, dict)`). -/
def Json.isDict : Json → Bool
  | .obj _ => true
  | _ => false

/-- Is the value a list (`isinstance(x, list)`). -/
def Json.isList : Json → Bool
  | .arr _ => true
  | _ => false

/-! ## Errors

`flask_rest_jsonapi.exceptions` is not under src/, only its callers are;
the kinds and their HTTP status codes are modelled from the spec. -/

/-- Error kinds raised by the resource layer (`JsonApiException` and its
subclasses), plus the base kind used for unexpected failures. -/
inductive ErrorKind where
  | badRequest
  | invalidType
  | relationNotFound
  | objectNotFound
  | validationError
  | incorrectType
  | preconditionFailed
  | notModified
  | jsonApiException
deriving Repr, DecidableEq

/-- Modelled from the spec: the status attribute each exception class in
`flask_rest_jsonapi.exceptions` carries, per the section 7 taxonomy
(BadRequest 400, InvalidType 409, RelationNotFound 404, ObjectNotFound 404,
ValidationError 422, IncorrectType 409, PreconditionFailed 412,
NotModified 304, unexpected 500-class). -/
def ErrorKind.status : ErrorKind → Nat
  | .badRequest => 400
  | .invalidType => 409
  | .relationNotFound => 404
  | .objectNotFound => 404
  | .validationError => 422
  | .incorrectType => 409
  | .preconditionFailed => 412
  | .notModified => 304
  | .jsonApiException => 500

/-- A raised `JsonApiException`: its kind (fixing the status), the source
pointer passed at the raise site, and the detail message. -/
structure ApiError where
  kind : ErrorKind
  pointer : String
  detail : String
deriving Repr, DecidableEq

/-- Modelled from the spec: `JsonApiException.to_dict` renders one error
entry of the error document (status, source pointer, detail); the exceptions
module is not under src/ and the claims never inspect the exact key set. -/
def ApiError.toDict (e : ApiError) : Json :=
  .obj [("status", .str (toString e.kind.status)),
        ("source", .obj [("pointer", .str e.pointer)]),
        ("detail", .str e.detail)]

/-- Modelled from the spec: `flask_rest_jsonapi.errors.jsonapi_errors` wraps
error entries into the error document envelope with an errors list
(section 7: all DomainErrors are converted to the error-document envelope). -/
def jsonapi_errors (errs : List Json) : Json :=
  .obj [("errors", .arr errs)]

/-- A Python exception escaping a verb: either a `JsonApiException` subclass
or any other exception (KeyError, TypeError, ...), which `dispatch_request`
turns into a 500-class response. -/
inductive Raised where
  | api (e : ApiError)
  | py (msg : String)
deriving Repr, DecidableEq

/-! ## Responses and the dispatch wrapper (resource.py lines 59-129) -/

/-- Association-list update on string-valued headers, mirroring Python
`dict.update` / werkzeug header assignment for a single key. -/
def updateAssoc : List (String × String) → String → String → List (String × String)
  | [], key, v => [(key, v)]
  | (k, w) :: rest, key, v =>
      if k = key then (k, v) :: rest else (k, w) :: updateAssoc rest key v

/-- Header lookup. -/
def getAssoc : List (String × String) → String → Option String
  | [], _ => none
  | (k, w) :: rest, key => if k = key then some w else getAssoc rest key

/-- A concrete HTTP response: encoded body, status code, headers. -/
structure Resp where
  body : String
  status : Nat
  headers : List (String × String)
deriving Repr, DecidableEq

/-- The app configuration flags resource.py reads. -/
structure Config where
  debug : Bool
  propogateError : Bool
  etag : Bool
  softDelete : Bool
  dasherizeApi : Bool
deriving Repr, DecidableEq

/-- What a verb returns on success: a bare document, a (document, status)
pair, or a (document, status, headers) triple — the three shapes
`dispatch_request` normalizes. -/
inductive VerbResponse where
  | bare (document : Json)
  | withStatus (document : Json) (status : Nat)
  | withHeaders (document : Json) (status : Nat) (headers : List (String × String))
deriving Repr

/-- Outcome of one verb invocation as seen by `dispatch_request`:
a successful return, a raised `JsonApiException`, or any other exception. -/
inductive VerbResult where
  | ok (response : VerbResponse)
  | apiError (e : ApiError)
  | unexpected (msg : String)
deriving Repr

/-- What `dispatch_request` itself produces: a response, a re-raised
exception (DEBUG mode), or Python `None` when control falls off the end of
the function body. -/
inductive Outcome where
  | response (r : Resp)
  | reraised (msg : String)
  | noResponse
deriving Repr, DecidableEq

def contentTypeValue : String := "application/vnd.api+json"

/-- The headers dict `dispatch_request` initializes before invoking the verb. -/
def baseHeaders : List (String × String) := [("Content-Type", contentTypeValue)]

/-- `response.update(jsonapi version marker)` applied to dict documents only
(lines 88-89 and 103-104). -/
def stampVersion : Json → Json
  | .obj fields => Json.set (.obj fields) "jsonapi" (.obj [("version", .str "1.0")])
  | j => j

/-- Lines 84-106: turn the verb return value into a response. Also returns
the final value of the local `headers` variable, which the 3-tuple branch
rebinds and which the conditional-protocol error responses reuse. The
`isinstance(response, Response)` branch is not modelled: no embedded verb
returns a raw werkzeug Response. -/
def normalize (r : VerbResponse) : Resp × List (String × String) :=
  match r with
  | .bare doc =>
      (⟨(stampVersion doc).encode, 200, baseHeaders⟩, baseHeaders)
  | .withStatus doc status =>
      (⟨(stampVersion doc).encode, status, baseHeaders⟩, baseHeaders)
  | .withHeaders doc status hs =>
      let hs' := updateAssoc hs "Content-Type" contentTypeValue
      (⟨(stampVersion doc).encode, status, hs'⟩, hs')

/-- Truthiness of `request.headers.get(name)`: present and non-empty. -/
def headerTruthy : Option String → Bool
  | none => false
  | some s => s != ""

/-- Python `s.split(',')` at the character level: split at every comma,
keeping empty segments. -/
def splitCommaAux : List Char → List Char → List (List Char)
  | [], acc => [acc.reverse]
  | c :: rest, acc =>
      if c = ',' then acc.reverse :: splitCommaAux rest []
      else splitCommaAux rest (c :: acc)

/-- ASCII whitespace as `str.strip()` removes it. -/
def isSpaceChar (c : Char) : Bool :=
  c = ' ' || c = '\t' || c = '\n' || c = '\r'

/-- Python `str.strip()`: drop leading and trailing whitespace. -/
def trimChars (cs : List Char) : List Char :=
  ((cs.dropWhile isSpaceChar).reverse.dropWhile isSpaceChar).reverse

/-- Line 116/123: `[tag.strip() for tag in header.split(',')]`, the
comma-split, whitespace-trimmed validator token list. -/
def parseValidatorList (s : String) : List String :=
  (splitCommaAux s.data []).map (fun cs => String.mk (trimChars cs))

/-- An error response as built at lines 70-72, 80-82, 119-121, 126-128:
the error document for one exception, its status, and a headers dict. -/
def errorResponse (e : ApiError) (hs : List (String × String)) : Resp :=
  ⟨(jsonapi_errors [e.toDict]).encode, e.kind.status, hs⟩

/-- `Resource.dispatch_request` (lines 59-129). The verb invocation and the
content hash (`hashlib.sha1(...).hexdigest()`) are parameters; `ifMatch` and
`ifNoneMatch` are the two conditional request headers. Mirrors the source
exactly, including that the final `return resp` sits inside the
`if config[ETAG] is True:` block, so with the protocol disabled the function
falls off its end and yields Python `None` (`Outcome.noResponse`). -/
def dispatch_request (cfg : Config) (hashFn : String → String)
    (ifMatch ifNoneMatch : Option String) (invocation : VerbResult) : Outcome :=
  match invocation with
  | .apiError e => .response (errorResponse e baseHeaders)
  | .unexpected msg =>
      if cfg.debug then .reraised msg
      else if cfg.propogateError then
        .response (errorResponse ⟨.jsonApiException, "", msg⟩ baseHeaders)
      else
        .response (errorResponse ⟨.jsonApiException, "", "Unknown error"⟩ baseHeaders)
  | .ok r =>
      let pair := normalize r
      let resp0 := pair.1
      let headersVar := pair.2
      if cfg.etag then
        let etag := hashFn resp0.body
        let resp := { resp0 with headers := updateAssoc resp0.headers "ETag" etag }
        if headerTruthy ifMatch then
          let etagList := parseValidatorList (ifMatch.getD "")
          if !(etagList.contains etag) && !(etagList.contains "*") then
            .response (errorResponse ⟨.preconditionFailed, "", "Precondition failed"⟩ headersVar)
          else
            .response resp
        else if headerTruthy ifNoneMatch then
          let etagList := parseValidatorList (ifNoneMatch.getD "")
          if etagList.contains etag || etagList.contains "*" then
            .response (errorResponse ⟨.notModified, "", "Resource not modified"⟩ headersVar)
          else
            .response resp
        else
          .response resp
      else
        .noResponse

/-! ## Python operator semantics used by the verbs -/

/-- Python `key in x` for the values that reach the membership tests:
key lookup on a dict, substring occurrence on a str, element membership on a
list, TypeError on everything else. -/
def pyContains (j : Json) (key : String) : Except Raised Bool :=
  match j with
  | .obj _ => .ok (j.hasKey key)
  | .str s => .ok (decide ((s.splitOn key).length > 1))
  | .arr elems => .ok (elems.any (fun e => match e with | .str t => t == key | _ => false))
  | _ => .error (.py "TypeError: argument is not a container")

/-- Python `x[key]` with a string key: dict lookup (KeyError when absent),
TypeError on non-dicts. -/
def pySubscript (j : Json) (key : String) : Except Raised Json :=
  match j with
  | .obj _ =>
      match j.get? key with
      | some v => .ok v
      | none => .error (.py "KeyError")
  | _ => .error (.py "TypeError: value is not subscriptable by a string key")

/-- Python `v != s` between a JSON value and a Python str: string comparison
when v is a str, unequal for every other runtime type. -/
def pyNeqStr (v : Json) (s : String) : Bool :=
  match v with
  | .str t => t != s
  | _ => true

/-- Python `str()` of a JSON value where it is used as a header value; exact
for strings, approximate elsewhere (no claim exercises a non-string link). -/
def pyStr : Json → String
  | .str s => s
  | j => j.encode

/-! ## Storage capability calls and verb runs -/

/-- One call into the pluggable data layer, recorded in order. -/
inductive StorageCall where
  | getCollection
  | createObject (data : Json)
  | getObject (getTrashed : Bool)
  | updateObject (data : Json)
  | deleteObject
  | createRelationship (payload : Json)
  | updateRelationship (payload : Json)
  | deleteRelationship (payload : Json)
deriving Repr

/-- The run of one verb: its return value (or the exception it raised) and
the data-layer calls it made, in order. -/
structure VerbRun where
  result : Except Raised VerbResponse
  calls : List StorageCall
deriving Repr

/-! ## The shared body-load prologue of create (lines 177-196) and
update (lines 260-279); the two blocks are character-identical. -/

/-- What `schema.load(json_data)` did: raised `IncorrectTypeError`, raised
`ValidationError`, or returned a (data, errors) pair. The schema capability
is external; its outcome is a parameter. -/
inductive LoadOutcome where
  | incorrectType (messages : Json)
  | validationFailure (messages : Json)
  | loaded (data : Json) (errors : Json)
deriving Repr

/-- `for error in errors[errors-list]: error[status] = st; error[title] = ti`
over the entries list; a non-dict entry raises TypeError. -/
def stampEntries (st ti : String) : List Json → Except Raised (List Json)
  | [] => .ok []
  | .obj fields :: rest =>
      match stampEntries st ti rest with
      | .error e => .error e
      | .ok rest' =>
          .ok (Json.set (Json.set (.obj fields) "status" (.str st)) "title" (.str ti) :: rest')
  | _ :: _ => .error (.py "TypeError: error entry is not a dict")

/-- Stamp every entry under the errors key of the messages document. -/
def stampErrorDoc (st ti : String) (messages : Json) : Except Raised Json :=
  match messages.get? "errors" with
  | some (.arr entries) =>
      match stampEntries st ti entries with
      | .error e => .error e
      | .ok entries' => .ok (Json.set messages "errors" (.arr entries'))
  | _ => .error (.py "KeyError or TypeError: errors node missing or not a list")

/-- After the load step either the verb proceeds with the parsed data, or it
returns an error document directly (the stamped returns at lines 184, 190,
196 / 267, 273, 279). -/
inductive LoadStep where
  | proceed (data : Json)
  | respond (r : VerbResponse)
deriving Repr

/-- The try/except around `schema.load` plus the `if errors:` check:
IncorrectTypeError entries become status 409 / title Incorrect type and the
document is returned with 409; ValidationError entries and truthy returned
errors become status 422 / title Validation error, returned with 422. -/
def handleLoad (outcome : LoadOutcome) : Except Raised LoadStep :=
  match outcome with
  | .incorrectType messages =>
      match stampErrorDoc "409" "Incorrect type" messages with
      | .error e => .error e
      | .ok stamped => .ok (.respond (.withStatus stamped 409))
  | .validationFailure messages =>
      match stampErrorDoc "422" "Validation error" messages with
      | .error e => .error e
      | .ok stamped => .ok (.respond (.withStatus stamped 422))
  | .loaded data errors =>
      if errors.truthy then
        match stampErrorDoc "422" "Validation error" errors with
        | .error e => .error e
        | .ok stamped => .ok (.respond (.withStatus stamped 422))
      else
        .ok (.proceed data)

/-! ## ResourceList.post (lines 164-204) -/

/-- The external inputs of one create: the request body, what `schema.load`
does on it, and `schema.dump(created_object).data`. Hooks are the default
no-ops; `create_object` is recorded as a storage call. -/
structure PostEnv where
  jsonData : Json
  loadOutcome : LoadOutcome
  createdDump : Json

/-- `result[data][links][self]` (line 204): nested lookup, KeyError when a
level is absent. -/
def selfLinkOf (result : Json) : Except Raised Json :=
  match pySubscript result "data" with
  | .error e => .error e
  | .ok d =>
      match pySubscript d "links" with
      | .error e => .error e
      | .ok l => pySubscript l "self"

/-- `ResourceList.post`: load and validate the body, create the object,
serialize it, return it with status 201 and a Location header set to the
self link under data.links of the serialized body. -/
def ResourceList.post (env : PostEnv) : VerbRun :=
  match handleLoad env.loadOutcome with
  | .error e => ⟨.error e, []⟩
  | .ok (.respond r) => ⟨.ok r, []⟩
  | .ok (.proceed data) =>
      match selfLinkOf env.createdDump with
      | .error e => ⟨.error e, [.createObject data]⟩
      | .ok link =>
          ⟨.ok (.withHeaders env.createdDump 201 [("Location", pyStr link)]),
           [.createObject data]⟩

/-! ## ResourceDetail.get (lines 221-243) -/

/-- The external inputs of one single-item get: the get_trashed query
parameter, the data layer fetch as a function of the flag it is called with,
and the serialized result. -/
structure DetailGetEnv where
  getTrashedParam : Option String
  fetch : Bool → Option Json
  dump : Json

/-- `ResourceDetail.get`: call `get_object` with `get_trashed=True` exactly
when the query parameter string-equals true, 404 when no object comes back,
else return the serialized object bare (dispatch gives it status 200). -/
def ResourceDetail.get (env : DetailGetEnv) : VerbRun :=
  let flag := env.getTrashedParam == some "true"
  match env.fetch flag with
  | none => ⟨.error (.api ⟨.objectNotFound, "", "Object Not Found"⟩), [.getObject flag]⟩
  | some _ => ⟨.ok (.bare env.dump), [.getObject flag]⟩

/-! ## ResourceDetail.patch (lines 245-301) -/

/-- String-valued kwargs lookup: the URL converter values as their
Python str() image. -/
def lookupStr : List (String × String) → String → Option String
  | [], _ => none
  | (k, v) :: rest, key => if k = key then some v else lookupStr rest key

/-- The external inputs of one single-item update: the request body, the
load outcome, the data_layer url_field configuration entry, the stringified
view kwargs, the get_trashed parameter, the fetch capability and the
serialized result. -/
structure PatchEnv where
  jsonData : Json
  loadOutcome : LoadOutcome
  urlField : Option String
  kwargs : List (String × String)
  getTrashedParam : Option String
  fetch : Bool → Option Json
  dump : Json

/-- `ResourceDetail.patch`: load and validate the body exactly as create
does, then require `id` in the body's data node (else BadRequest /data/id)
and require it to equal `str(kwargs[data_layer.get(url_field, id)])` (else
BadRequest /data/id) — both checks before any data-layer call — then fetch
(404 when absent), update, and return the serialized object. -/
def ResourceDetail.patch (env : PatchEnv) : VerbRun :=
  match handleLoad env.loadOutcome with
  | .error e => ⟨.error e, []⟩
  | .ok (.respond r) => ⟨.ok r, []⟩
  | .ok (.proceed data) =>
      match pySubscript env.jsonData "data" with
      | .error e => ⟨.error e, []⟩
      | .ok dataNode =>
          match pyContains dataNode "id" with
          | .error e => ⟨.error e, []⟩
          | .ok false =>
              ⟨.error (.api ⟨.badRequest, "/data/id", "Missing id in \x22data\x22 node"⟩), []⟩
          | .ok true =>
              match lookupStr env.kwargs (env.urlField.getD "id") with
              | none => ⟨.error (.py "KeyError: url field kwarg"), []⟩
              | some urlValue =>
                  match pySubscript dataNode "id" with
                  | .error e => ⟨.error e, []⟩
                  | .ok idValue =>
                      if pyNeqStr idValue urlValue then
                        ⟨.error (.api ⟨.badRequest, "/data/id",
                          "Value of id does not match the resource identifier in url"⟩), []⟩
                      else
                        let flag := env.getTrashedParam == some "true"
                        match env.fetch flag with
                        | none =>
                            ⟨.error (.api ⟨.objectNotFound, "", "Object Not Found"⟩),
                             [.getObject flag]⟩
                        | some _ =>
                            ⟨.ok (.bare env.dump), [.getObject flag, .updateObject data]⟩

/-! ## ResourceDetail.delete (lines 303-319) -/

/-- The external inputs of one single-item delete: the permanent query
parameter, whether the schema declares a deleted_at field, the SOFT_DELETE
configuration flag, the fetch capability, and `str(datetime.now(pytz.utc))`. -/
structure DeleteEnv where
  permanentParam : Option String
  schemaHasDeletedAt : Bool
  softDeleteConfig : Bool
  fetch : Bool → Option Json
  now : String

/-- The success-message envelope delete returns (line 317). -/
def deleteSuccessDoc : Json :=
  .obj [("meta", .obj [("message", .str "Object successfully deleted")])]

/-- `ResourceDetail.delete`: fetch with `get_trashed = (permanent == true)`,
404 when absent; physically delete when the schema has no deleted_at field,
or permanent equals true, or SOFT_DELETE is False; otherwise update with a
populated deleted_at field; return the success-message envelope bare. -/
def ResourceDetail.delete (env : DeleteEnv) : VerbRun :=
  let permanent := env.permanentParam == some "true"
  match env.fetch permanent with
  | none => ⟨.error (.api ⟨.objectNotFound, "", "Object Not Found"⟩), [.getObject permanent]⟩
  | some _ =>
      if !env.schemaHasDeletedAt || permanent || !env.softDeleteConfig then
        ⟨.ok (.bare deleteSuccessDoc), [.getObject permanent, .deleteObject]⟩
      else
        ⟨.ok (.bare deleteSuccessDoc),
         [.getObject permanent, .updateObject (.obj [("deleted_at", .str env.now)])]⟩

/-! ## ResourceRelationship.post / patch / delete (lines 378-518)

The three verbs carry a character-identical body-validation block and differ
only in the storage call they dispatch and in the status computation after
it. -/

/-- Which relationship mutation verb is running. -/
inductive RelVerb where
  | post
  | patch
  | delete
deriving Repr, DecidableEq

/-- The validation applied to one element of a data list (lines 396-402 /
444-450 / 492-498): type then id must be present, then the element's type
must equal the relationship's declared related type. -/
def validateRelElement (relatedType : String) (elem : Json) : Except Raised Unit :=
  match pyContains elem "type" with
  | .error e => .error e
  | .ok false => .error (.api ⟨.badRequest, "/data/type", "Missing type in \x22data\x22 node"⟩)
  | .ok true =>
      match pyContains elem "id" with
      | .error e => .error e
      | .ok false => .error (.api ⟨.badRequest, "/data/id", "Missing id in \x22data\x22 node"⟩)
      | .ok true =>
          match pySubscript elem "type" with
          | .error e => .error e
          | .ok t =>
              if pyNeqStr t relatedType then
                .error (.api ⟨.invalidType, "/data/type",
                  "The type provided does not match the resource type"⟩)
              else
                .ok ()

/-- The element loop over a data list, first offending element wins. -/
def validateRelList (relatedType : String) : List Json → Except Raised Unit
  | [] => .ok ()
  | e :: rest =>
      match validateRelElement relatedType e with
      | .error err => .error err
      | .ok () => validateRelList relatedType rest

/-- The whole body-validation block: data must be present; when it is a dict
it must carry type and id and its type must equal the related type; when it
is a list every element must; any other shape of data skips validation
entirely. -/
def validateRelBody (relatedType : String) (jsonData : Json) : Except Raised Unit :=
  match pyContains jsonData "data" with
  | .error e => .error e
  | .ok false =>
      .error (.api ⟨.badRequest, "/data", "You must provide data with a \x22data\x22 route node"⟩)
  | .ok true =>
      match pySubscript jsonData "data" with
      | .error e => .error e
      | .ok dataNode =>
          match dataNode with
          | .obj _ =>
              (match pyContains dataNode "type" with
               | .error e => .error e
               | .ok false =>
                   .error (.api ⟨.badRequest, "/data/type", "Missing type in \x22data\x22 node"⟩)
               | .ok true =>
                   match pyContains dataNode "id" with
                   | .error e => .error e
                   | .ok false =>
                       .error (.api ⟨.badRequest, "/data/id", "Missing id in \x22data\x22 node"⟩)
                   | .ok true =>
                       match pySubscript dataNode "type" with
                       | .error e => .error e
                       | .ok t =>
                           if pyNeqStr t relatedType then
                             .error (.api ⟨.invalidType, "/data/type",
                               "The type field does not match the resource type"⟩)
                           else
                             .ok ())
          | .arr elems => validateRelList relatedType elems
          | _ => .ok ()

/-- The external inputs of one relationship mutation: the request body, the
relationship metadata resolved by `_get_relationship_data`, the parsed
include list of the query string, the changed flag the data layer returns,
the schema dump of the owner as a function of the include list the schema is
configured with, and the literal request path. -/
structure RelEnv where
  jsonData : Json
  relatedType : String
  relationshipField : String
  qsInclude : List String
  storageChanged : Bool
  dump : List String → Json
  requestPath : String

/-- The storage call each relationship verb dispatches, with its payload. -/
def relStorageCall (verb : RelVerb) (payload : Json) : StorageCall :=
  match verb with
  | .post => .createRelationship payload
  | .patch => .updateRelationship payload
  | .delete => .deleteRelationship payload

/-- Lines 412-414 / 460-462 / 508-510: the include list handed to
`compute_schema`, with the relationship field appended when absent. -/
def relIncludes (qsInclude : List String) (relationshipField : String) : List String :=
  if relationshipField ∈ qsInclude then qsInclude
  else qsInclude ++ [relationshipField]

/-- Lines 421-422 / 469-470 / 515-516: rewrite a non-null self link under
links to the literal request path. -/
def selfLinkRewrite (requestPath : String) (result : Json) : Except Raised Json :=
  match result.get? "links" with
  | none => .ok result
  | some (.obj linkFields) =>
      match Json.lookupField linkFields "self" with
      | none => .ok result
      | some .null => .ok result
      | some _ =>
          .ok (Json.set result "links" (Json.set (.obj linkFields) "self" (.str requestPath)))
  | some _ => .error (.py "AttributeError: links value is not a dict")

/-- The run of a relationship mutation, additionally recording the include
list the schema was configured with (none when validation failed first). -/
structure RelRun where
  result : Except Raised VerbResponse
  calls : List StorageCall
  includesUsed : Option (List String)

/-- One relationship mutation verb: validate the body (before any storage
call), dispatch the storage call with the raw payload, compute the schema
with the relationship field forced into the include list, then: post/patch
return empty-body 204 when nothing changed, else the serialized owner with
200; delete returns the serialized owner with 200 when something changed and
204 otherwise; in every serialized result a present non-null self link is
replaced by the literal request path. -/
def relationshipMutation (verb : RelVerb) (env : RelEnv) : RelRun :=
  match validateRelBody env.relatedType env.jsonData with
  | .error e => ⟨.error e, [], none⟩
  | .ok () =>
      let call := relStorageCall verb env.jsonData
      let includes := relIncludes env.qsInclude env.relationshipField
      match verb with
      | .delete =>
          let status := if env.storageChanged then 200 else 204
          (match selfLinkRewrite env.requestPath (env.dump includes) with
           | .error e => ⟨.error e, [call], some includes⟩
           | .ok result => ⟨.ok (.withStatus result status), [call], some includes⟩)
      | _ =>
          if !env.storageChanged then
            ⟨.ok (.withStatus (.str "") 204), [call], some includes⟩
          else
            match selfLinkRewrite env.requestPath (env.dump includes) with
            | .error e => ⟨.error e, [call], some includes⟩
            | .ok result => ⟨.ok (.withStatus result 200), [call], some includes⟩

/-- The successful response returned by the conditional block: the
normalized response with the ETag header set to the hash of its body. -/
def successRespOf (hashFn : String → String) (r : VerbResponse) : Resp :=
  { (normalize r).1 with
    headers := updateAssoc (normalize r).1.headers "ETag" (hashFn (normalize r).1.body) }

/-! ## Helper lemmas -/

theorem getAssoc_updateAssoc_self (hs : List (String × String)) (k v : String) :
    getAssoc (updateAssoc hs k v) k = some v := by
  induction hs with
  | nil => simp [updateAssoc, getAssoc]
  | cons p rest ih =>
      obtain ⟨k', w⟩ := p
      by_cases hk : k' = k
      · simp [updateAssoc, getAssoc, hk]
      · simp [updateAssoc, getAssoc, hk, ih]

theorem lookupField_setField_self (fs : List (String × Json)) (k : String) (v : Json) :
    Json.lookupField (Json.setField fs k v) k = some v := by
  induction fs with
  | nil => simp [Json.setField, Json.lookupField]
  | cons p rest ih =>
      obtain ⟨k', w⟩ := p
      by_cases hk : k' = k
      · simp [Json.setField, Json.lookupField, hk]
      · simp [Json.setField, Json.lookupField, hk, ih]

theorem lookupField_setField_ne (fs : List (String × Json)) (k k' : String) (v : Json)
    (h : k' ≠ k) :
    Json.lookupField (Json.setField fs k v) k' = Json.lookupField fs k' := by
  induction fs with
  | nil => simp [Json.setField, Json.lookupField, Ne.symm h]
  | cons p rest ih =>
      obtain ⟨k'', w⟩ := p
      by_cases hk : k'' = k
      · subst hk
        have hne : ¬ k'' = k' := fun hh => h hh.symm
        simp [Json.setField, Json.lookupField, hne]
      · by_cases hk' : k'' = k'
        · simp [Json.setField, Json.lookupField, hk, hk', h]
        · simp [Json.setField, Json.lookupField, hk, hk', ih]

/-! ## Claim theorems -/

/-- C1: the claim says every successful verb invocation has its normalized
response emitted as the final HTTP response regardless of whether the ETag
protocol is enabled. The code violates this: the final `return resp` of
`dispatch_request` sits inside the `if config[ETAG] is True:` block, so with
the protocol disabled (second config field pattern below has `etag = false`)
the function returns Python None and no response is emitted at all, while
with the protocol enabled the very same invocation yields the normalized
response. -/
theorem c1_dispatch_emits_only_when_etag_enabled :
    dispatch_request ⟨false, false, false, true, false⟩ (fun _ => "h") none none
        (.ok (.bare (.obj []))) = Outcome.noResponse
    ∧ dispatch_request ⟨false, false, true, true, false⟩ (fun _ => "h") none none
        (.ok (.bare (.obj []))) =
      Outcome.response ⟨(stampVersion (Json.obj [])).encode, 200,
        [("Content-Type", contentTypeValue), ("ETag", "h")]⟩ :=
  ⟨rfl, rfl⟩

/-- C2 counterexample: with the ETag protocol enabled, a request whose
If-Match list contains the computed hash AND whose If-None-Match list also
contains the computed hash gets the plain success response (status 200) —
the `elif` at line 122 skips the If-None-Match check whenever If-Match is
present — whereas the claim's conditional chain ("otherwise, if the request
has an If-None-Match header whose token list contains the computed hash or
'*', the result is NotModified (304)") requires a 304 here, since the
If-Match condition for 412 does not hold. -/
theorem c2_counterexample_both_validators_matching :
    "h0" ∈ parseValidatorList "h0"
    ∧ dispatch_request ⟨false, false, true, true, false⟩ (fun _ => "h0")
        (some "h0") (some "h0") (.ok (.bare (.obj []))) =
      Outcome.response ⟨(stampVersion (Json.obj [])).encode, 200,
        [("Content-Type", contentTypeValue), ("ETag", "h0")]⟩
    ∧ (200 : Nat) ≠ ErrorKind.notModified.status :=
  ⟨by decide, by decide, by decide⟩

/-- C2 as amended: when the ETag protocol is enabled, every successful
response carries an ETag header equal to the content hash of the final
encoded body; if an If-Match header is present and its comma-separated,
trimmed token list contains neither the hash nor a wildcard the result is
PreconditionFailed (412), and when it does contain one of them the success
response is returned unchanged with the If-None-Match header never
consulted; only when no If-Match header is present is If-None-Match
examined: a token list containing the hash or a wildcard yields
NotModified (304), anything else returns the success response unchanged. -/
theorem c2_conditional_request_protocol (cfg : Config) (hashFn : String → String)
    (im inm : Option String) (r : VerbResponse) (hE : cfg.etag = true) :
    (headerTruthy im = false → headerTruthy inm = false →
        dispatch_request cfg hashFn im inm (.ok r) = .response (successRespOf hashFn r))
    ∧ (headerTruthy im = true →
        ((hashFn (normalize r).1.body ∉ parseValidatorList (im.getD "") →
          "*" ∉ parseValidatorList (im.getD "") →
            dispatch_request cfg hashFn im inm (.ok r) =
              .response (errorResponse ⟨.preconditionFailed, "", "Precondition failed"⟩
                (normalize r).2))
        ∧ ((hashFn (normalize r).1.body ∈ parseValidatorList (im.getD "")
              ∨ "*" ∈ parseValidatorList (im.getD "")) →
            dispatch_request cfg hashFn im inm (.ok r) = .response (successRespOf hashFn r))))
    ∧ (headerTruthy im = false → headerTruthy inm = true →
        (((hashFn (normalize r).1.body ∈ parseValidatorList (inm.getD "")
              ∨ "*" ∈ parseValidatorList (inm.getD "")) →
            dispatch_request cfg hashFn im inm (.ok r) =
              .response (errorResponse ⟨.notModified, "", "Resource not modified"⟩
                (normalize r).2))
        ∧ (hashFn (normalize r).1.body ∉ parseValidatorList (inm.getD "") →
           "*" ∉ parseValidatorList (inm.getD "") →
            dispatch_request cfg hashFn im inm (.ok r) = .response (successRespOf hashFn r))))
    ∧ getAssoc (successRespOf hashFn r).headers "ETag" = some (hashFn (normalize r).1.body)
    ∧ ErrorKind.preconditionFailed.status = 412
    ∧ ErrorKind.notModified.status = 304 := by
  refine ⟨?_, ?_, ?_, ?_, rfl, rfl⟩
  · intro h1 h2
    simp [dispatch_request, hE, h1, h2, successRespOf]
  · intro h1
    constructor
    · intro hc hw
      simp [dispatch_request, hE, h1, hc, hw]
    · intro hcw
      rcases hcw with hc | hw
      · simp [dispatch_request, hE, h1, hc, successRespOf]
      · simp [dispatch_request, hE, h1, hw, successRespOf]
  · intro h1 h2
    constructor
    · intro hcw
      rcases hcw with hc | hw
      · simp [dispatch_request, hE, h1, h2, hc]
      · simp [dispatch_request, hE, h1, h2, hw]
    · intro hc hw
      simp [dispatch_request, hE, h1, h2, hc, hw, successRespOf]
  · exact getAssoc_updateAssoc_self _ _ _

/-- C2 witness: the amended protocol theorem applied at a concrete request
whose If-Match list matches neither the hash nor a wildcard, yielding the
412 PreconditionFailed response. -/
theorem c2_conditional_request_protocol_witness :
    dispatch_request ⟨false, false, true, true, false⟩ (fun _ => "h0") (some "zzz") none
        (.ok (.bare (.obj []))) =
      .response (errorResponse ⟨.preconditionFailed, "", "Precondition failed"⟩ baseHeaders) :=
  ((c2_conditional_request_protocol ⟨false, false, true, true, false⟩ (fun _ => "h0")
      (some "zzz") none (.bare (.obj [])) rfl).2.1 rfl).1
    (by decide) (by decide)

/-- C3: for a single-item delete whose fetch finds an object, the physical
`delete_object` call is made exactly when the schema declares no deleted_at
field, or the permanent query flag equals true, or SOFT_DELETE is false; in
every other case `update_object` is called with a data dict whose deleted_at
field is populated and delete_object is never called; and the verb returns
the success-message envelope bare, which the dispatch wrapper emits with
status 200, not 204. -/
theorem c3_delete_soft_delete_branching (env : DeleteEnv) (o : Json)
    (h : env.fetch (env.permanentParam == some "true") = some o) :
    (StorageCall.deleteObject ∈ (ResourceDetail.delete env).calls ↔
      (env.schemaHasDeletedAt = false ∨ env.permanentParam = some "true"
        ∨ env.softDeleteConfig = false))
    ∧ ((env.schemaHasDeletedAt = true ∧ env.permanentParam ≠ some "true"
          ∧ env.softDeleteConfig = true) →
        (ResourceDetail.delete env).calls =
          [.getObject false, .updateObject (.obj [("deleted_at", .str env.now)])]
        ∧ (Json.obj [("deleted_at", .str env.now)]).get? "deleted_at" = some (.str env.now))
    ∧ (ResourceDetail.delete env).result = .ok (.bare deleteSuccessDoc)
    ∧ (normalize (.bare deleteSuccessDoc)).1.status = 200
    ∧ (200 : Nat) ≠ 204 := by
  by_cases hpp : env.permanentParam = some "true"
  · have hp : (env.permanentParam == some "true") = true := by simp [hpp]
    rw [hp] at h
    cases hA : env.schemaHasDeletedAt <;> cases hC : env.softDeleteConfig <;>
      simp [ResourceDetail.delete, h, hp, hpp, hA, hC, normalize, Json.get?, Json.lookupField]
  · have hp : (env.permanentParam == some "true") = false := by simp [hpp]
    rw [hp] at h
    cases hA : env.schemaHasDeletedAt <;> cases hC : env.softDeleteConfig <;>
      simp [ResourceDetail.delete, h, hp, hpp, hA, hC, normalize, Json.get?, Json.lookupField]

/-- C3 witness: with a schema declaring deleted_at, no permanent flag and
soft delete enabled, the fetched object is soft-deleted through
update_object and delete_object is never called. -/
theorem c3_delete_soft_delete_branching_witness :
    (ResourceDetail.delete ⟨none, true, true, fun _ => some (.obj []), "t0"⟩).calls =
      [.getObject false, .updateObject (.obj [("deleted_at", .str "t0")])] :=
  ((c3_delete_soft_delete_branching ⟨none, true, true, fun _ => some (.obj []), "t0"⟩
      (.obj []) rfl).2.1 ⟨rfl, by decide, rfl⟩).1

/-- C4: for a single-item update whose body passes schema validation, a data
node lacking an id, or carrying an id unequal as a string to the URL's
identifier value (the kwarg named by the configured url_field, default id),
yields BadRequest with source pointer /data/id (status 400), and the run
makes no data-layer call at all — neither fetch nor update. -/
theorem c4_patch_identifier_checks (env : PatchEnv) (data : Json)
    (dfs : List (String × Json)) (urlValue : String)
    (hload : handleLoad env.loadOutcome = .ok (.proceed data))
    (hdata : env.jsonData.get? "data" = some (.obj dfs))
    (hurl : lookupStr env.kwargs (env.urlField.getD "id") = some urlValue) :
    (Json.lookupField dfs "id" = none →
        ResourceDetail.patch env =
          ⟨.error (.api ⟨.badRequest, "/data/id", "Missing id in \x22data\x22 node"⟩), []⟩)
    ∧ (∀ idv, Json.lookupField dfs "id" = some idv → pyNeqStr idv urlValue = true →
        ResourceDetail.patch env =
          ⟨.error (.api ⟨.badRequest, "/data/id",
            "Value of id does not match the resource identifier in url"⟩), []⟩)
    ∧ ErrorKind.badRequest.status = 400 := by
  have hobj : ∃ jfs, env.jsonData = Json.obj jfs := by
    cases hj : env.jsonData <;> rw [hj] at hdata <;>
      simp [Json.get?] at hdata
    exact ⟨_, rfl⟩
  obtain ⟨jfs, hj⟩ := hobj
  rw [hj] at hdata
  simp only [Json.get?] at hdata
  refine ⟨?_, ?_, rfl⟩
  · intro hid
    simp [ResourceDetail.patch, hload, hj, pySubscript, pyContains, Json.get?, Json.hasKey,
          hdata, hid]
  · intro idv hid hne
    simp [ResourceDetail.patch, hload, hj, pySubscript, pyContains, Json.get?, Json.hasKey,
          hdata, hid, hurl, hne]

/-- C4 witness: a validated body whose data.id is the string 2 against URL
identifier 1 yields the BadRequest /data/id error with no storage call. -/
theorem c4_patch_identifier_checks_witness :
    ResourceDetail.patch
        ⟨.obj [("data", .obj [("id", .str "2")])], .loaded (.obj []) (.obj []), none,
         [("id", "1")], none, fun _ => some (.obj []), .obj []⟩ =
      ⟨.error (.api ⟨.badRequest, "/data/id",
        "Value of id does not match the resource identifier in url"⟩), []⟩ :=
  (c4_patch_identifier_checks
      ⟨.obj [("data", .obj [("id", .str "2")])], .loaded (.obj []) (.obj []), none,
       [("id", "1")], none, fun _ => some (.obj []), .obj []⟩
      (.obj []) [("id", .str "2")] "1" rfl rfl rfl).2.1 (.str "2") rfl (by decide)

/-- C5: for a create whose payload loads with no errors, the verb returns
the serialized created object with status 201 and a Location header whose
value is the self link under data.links of that serialized body. -/
theorem c5_create_location_header (env : PostEnv) (data errs : Json) (link : String)
    (hload : env.loadOutcome = .loaded data errs)
    (herrs : errs.truthy = false)
    (hlink : selfLinkOf env.createdDump = .ok (.str link)) :
    ResourceList.post env =
      ⟨.ok (.withHeaders env.createdDump 201 [("Location", link)]), [.createObject data]⟩
    ∧ (normalize (.withHeaders env.createdDump 201 [("Location", link)])).1.status = 201
    ∧ getAssoc (normalize (.withHeaders env.createdDump 201 [("Location", link)])).1.headers
        "Location" = some link := by
  refine ⟨?_, rfl, ?_⟩
  · simp [ResourceList.post, handleLoad, hload, herrs, hlink, pyStr]
  · simp [normalize, updateAssoc, getAssoc]

/-- C5 witness: a concrete create whose serialized body carries a self link
returns 201 with that link as the Location header. -/
theorem c5_create_location_header_witness :
    ResourceList.post
        ⟨.obj [], .loaded (.obj []) (.obj []),
         .obj [("data", .obj [("links", .obj [("self", .str "/articles/1")])])]⟩ =
      ⟨.ok (.withHeaders
          (.obj [("data", .obj [("links", .obj [("self", .str "/articles/1")])])])
          201 [("Location", "/articles/1")]), [.createObject (.obj [])]⟩ :=
  (c5_create_location_header
      ⟨.obj [], .loaded (.obj []) (.obj []),
       .obj [("data", .obj [("links", .obj [("self", .str "/articles/1")])])]⟩
      (.obj []) (.obj []) "/articles/1" rfl rfl rfl).1

/-- When the stamping loop succeeds, it keeps the number of error entries
and leaves every entry carrying the given status and title. -/
theorem stampEntries_ok_spec (st ti : String) :
    ∀ entries stamped, stampEntries st ti entries = .ok stamped →
      stamped.length = entries.length ∧
      ∀ e ∈ stamped, e.get? "status" = some (.str st) ∧ e.get? "title" = some (.str ti) := by
  intro entries
  induction entries with
  | nil =>
      intro stamped h
      simp [stampEntries] at h
      subst h
      simp
  | cons e rest ih =>
      intro stamped h
      cases e with
      | obj fields =>
          rw [stampEntries] at h
          cases hrest : stampEntries st ti rest with
          | error err => rw [hrest] at h; cases h
          | ok rest' =>
              rw [hrest] at h
              cases h
              obtain ⟨hlen, hall⟩ := ih rest' hrest
              refine ⟨by simp [hlen], ?_⟩
              intro x hx
              rcases List.mem_cons.mp hx with hx | hx
              · subst hx
                constructor
                · show Json.lookupField
                    (Json.setField (Json.setField fields "status" (.str st)) "title" (.str ti))
                    "status" = some (.str st)
                  rw [lookupField_setField_ne _ _ _ _ (by decide)]
                  exact lookupField_setField_self _ _ _
                · exact lookupField_setField_self _ _ _
              · exact hall x hx
      | null => simp [stampEntries] at h
      | bool b => simp [stampEntries] at h
      | num n => simp [stampEntries] at h
      | str s => simp [stampEntries] at h
      | arr elems => simp [stampEntries] at h

/-- C8: for every create or update body load, a structural-type mismatch
(IncorrectTypeError) yields the error document with every entry stamped
status 409 / title Incorrect type, returned with HTTP status 409; a
field-level validation failure (raised ValidationError, or a truthy errors
dict returned by load) yields every entry stamped status 422 / title
Validation error, returned with HTTP status 422; and the whole entries list
is kept, so multiple field errors come back batched in one document. -/
theorem c8_load_error_stamping (messages data : Json) (entries s409 s422 : List Json)
    (hm : messages.get? "errors" = some (.arr entries))
    (h409 : stampEntries "409" "Incorrect type" entries = .ok s409)
    (h422 : stampEntries "422" "Validation error" entries = .ok s422)
    (htruthy : messages.truthy = true) :
    (∀ env : PostEnv, env.loadOutcome = .incorrectType messages →
        ResourceList.post env =
          ⟨.ok (.withStatus (Json.set messages "errors" (.arr s409)) 409), []⟩)
    ∧ (∀ env : PatchEnv, env.loadOutcome = .incorrectType messages →
        ResourceDetail.patch env =
          ⟨.ok (.withStatus (Json.set messages "errors" (.arr s409)) 409), []⟩)
    ∧ s409.length = entries.length
    ∧ (∀ e ∈ s409, e.get? "status" = some (.str "409")
        ∧ e.get? "title" = some (.str "Incorrect type"))
    ∧ (∀ env : PostEnv, env.loadOutcome = .validationFailure messages →
        ResourceList.post env =
          ⟨.ok (.withStatus (Json.set messages "errors" (.arr s422)) 422), []⟩)
    ∧ (∀ env : PatchEnv, env.loadOutcome = .validationFailure messages →
        ResourceDetail.patch env =
          ⟨.ok (.withStatus (Json.set messages "errors" (.arr s422)) 422), []⟩)
    ∧ (∀ env : PostEnv, env.loadOutcome = .loaded data messages →
        ResourceList.post env =
          ⟨.ok (.withStatus (Json.set messages "errors" (.arr s422)) 422), []⟩)
    ∧ s422.length = entries.length
    ∧ (∀ e ∈ s422, e.get? "status" = some (.str "422")
        ∧ e.get? "title" = some (.str "Validation error")) := by
  obtain ⟨hlen409, hall409⟩ := stampEntries_ok_spec _ _ _ _ h409
  obtain ⟨hlen422, hall422⟩ := stampEntries_ok_spec _ _ _ _ h422
  refine ⟨?_, ?_, hlen409, hall409, ?_, ?_, ?_, hlen422, hall422⟩ <;>
    intro env henv <;>
      simp [ResourceList.post, ResourceDetail.patch, handleLoad, stampErrorDoc, henv,
            hm, h409, h422, htruthy]

/-- C8 witness: a two-entry error document raised as a structural-type
mismatch on create comes back whole with both entries stamped 409 and the
title Incorrect type. -/
theorem c8_load_error_stamping_witness :
    ResourceList.post
        ⟨.obj [],
         .incorrectType (.obj [("errors",
            .arr [.obj [("detail", .str "a")], .obj [("detail", .str "b")]])]),
         .obj []⟩ =
      ⟨.ok (.withStatus
          (.obj [("errors",
            .arr [.obj [("detail", .str "a"), ("status", .str "409"),
                        ("title", .str "Incorrect type")],
                  .obj [("detail", .str "b"), ("status", .str "409"),
                        ("title", .str "Incorrect type")]])])
          409), []⟩ :=
  (c8_load_error_stamping
      (.obj [("errors", .arr [.obj [("detail", .str "a")], .obj [("detail", .str "b")]])])
      (.obj []) [.obj [("detail", .str "a")], .obj [("detail", .str "b")]]
      [.obj [("detail", .str "a"), ("status", .str "409"), ("title", .str "Incorrect type")],
       .obj [("detail", .str "b"), ("status", .str "409"), ("title", .str "Incorrect type")]]
      [.obj [("detail", .str "a"), ("status", .str "422"), ("title", .str "Validation error")],
       .obj [("detail", .str "b"), ("status", .str "422"), ("title", .str "Validation error")]]
      rfl rfl rfl rfl).1
    ⟨.obj [],
     .incorrectType (.obj [("errors",
        .arr [.obj [("detail", .str "a")], .obj [("detail", .str "b")]])]),
     .obj []⟩ rfl

/-- C9: the single-item get always calls the data layer fetch with the
include-soft-deleted flag computed as string equality of the get_trashed
query parameter with true — so the flag is set exactly when the parameter
equals the string true and for every other value or absence it is not — and
whenever the fetch returns no object the verb raises ObjectNotFound (404),
otherwise it returns the serialized object. -/
theorem c9_get_trashed_flag (env : DetailGetEnv) :
    (ResourceDetail.get env).calls = [.getObject (env.getTrashedParam == some "true")]
    ∧ ((env.getTrashedParam == some "true") = true ↔ env.getTrashedParam = some "true")
    ∧ (env.fetch (env.getTrashedParam == some "true") = none →
        (ResourceDetail.get env).result = .error (.api ⟨.objectNotFound, "", "Object Not Found"⟩)
        ∧ ErrorKind.objectNotFound.status = 404)
    ∧ (∀ o, env.fetch (env.getTrashedParam == some "true") = some o →
        (ResourceDetail.get env).result = .ok (.bare env.dump)) := by
  refine ⟨?_, beq_iff_eq, ?_, ?_⟩
  · cases hf : env.fetch (env.getTrashedParam == some "true") <;>
      simp [ResourceDetail.get, hf]
  · intro hf
    exact ⟨by simp [ResourceDetail.get, hf], rfl⟩
  · intro o hf
    simp [ResourceDetail.get, hf]

/-- C9 witness: a get_trashed parameter equal to the string false leaves the
flag unset on the recorded fetch call. -/
theorem c9_get_trashed_flag_witness :
    (ResourceDetail.get ⟨some "false", fun _ => some (.obj []), .obj []⟩).calls =
      [.getObject false] :=
  (c9_get_trashed_flag ⟨some "false", fun _ => some (.obj []), .obj []⟩).1

/-- A Json value whose data key lookup succeeds is a dict. -/
theorem exists_obj_of_get?_eq_some {j v : Json} {key : String}
    (h : j.get? key = some v) :
    ∃ jfs, j = Json.obj jfs ∧ Json.lookupField jfs key = some v := by
  cases hj : j <;> rw [hj] at h <;> simp [Json.get?] at h
  exact ⟨_, rfl, h⟩

/-- When the element loop accepts a data list, every element is a dict
carrying an id and carrying the declared related type as its type. -/
theorem validateRelList_ok_elements (rt : String) :
    ∀ elems, validateRelList rt elems = .ok () →
      ∀ e ∈ elems, ∃ efs, e = Json.obj efs
        ∧ Json.lookupField efs "type" = some (.str rt)
        ∧ (Json.lookupField efs "id").isSome = true := by
  intro elems
  induction elems with
  | nil => intro _ e he; simp at he
  | cons x rest ih =>
      intro h e he
      cases hx : validateRelElement rt x with
      | error err => rw [validateRelList, hx] at h; cases h
      | ok u =>
          rw [validateRelList, hx] at h
          rcases List.mem_cons.mp he with he | he

          · subst he
            cases e with
            | obj efs =>
                cases hT : Json.lookupField efs "type" with
                | none =>
                    simp [validateRelElement, pyContains, Json.hasKey, Json.get?, hT] at hx
                | some tv =>
                    cases hI : Json.lookupField efs "id" with
                    | none =>
                        simp [validateRelElement, pyContains, Json.hasKey, Json.get?,
                              hT, hI] at hx
                    | some idv =>
                        cases tv with
                        | str s =>
                            by_cases hs : s = rt
                            · exact ⟨efs, rfl, by rw [hT, hs], by simp [hI]⟩
                            · simp [validateRelElement, pyContains, pySubscript, Json.hasKey,
                                    Json.get?, hT, hI, pyNeqStr, hs] at hx
                        | null =>
                            simp [validateRelElement, pyContains, pySubscript, Json.hasKey,
                                  Json.get?, hT, hI, pyNeqStr] at hx
                        | bool b =>
                            simp [validateRelElement, pyContains, pySubscript, Json.hasKey,
                                  Json.get?, hT, hI, pyNeqStr] at hx
                        | num n =>
                            simp [validateRelElement, pyContains, pySubscript, Json.hasKey,
                                  Json.get?, hT, hI, pyNeqStr] at hx
                        | arr es =>
                            simp [validateRelElement, pyContains, pySubscript, Json.hasKey,
                                  Json.get?, hT, hI, pyNeqStr] at hx
                        | obj os =>
                            simp [validateRelElement, pyContains, pySubscript, Json.hasKey,
                                  Json.get?, hT, hI, pyNeqStr] at hx
            | null => simp [validateRelElement, pyContains] at hx
            | bool b => simp [validateRelElement, pyContains] at hx
            | num n => simp [validateRelElement, pyContains] at hx
            | str s =>
                rw [validateRelElement] at hx
                rcases hb1 : pyContains (Json.str s) "type" with e1 | b1 <;> rw [hb1] at hx
                · cases hx
                · cases b1
                  · cases hx
                  · rcases hb2 : pyContains (Json.str s) "id" with e2 | b2 <;> rw [hb2] at hx
                    · cases hx
                    · cases b2
                      · cases hx
                      · simp [pySubscript] at hx
            | arr es =>
                rw [validateRelElement] at hx
                rcases hb1 : pyContains (Json.arr es) "type" with e1 | b1 <;> rw [hb1] at hx
                · cases hx
                · cases b1
                  · cases hx
                  · rcases hb2 : pyContains (Json.arr es) "id" with e2 | b2 <;> rw [hb2] at hx
                    · cases hx
                    · cases b2
                      · cases hx
                      · simp [pySubscript] at hx
          · exact ih h e he

/-- C6: every relationship mutation rejects, before any data-layer call, a
body without a data key (BadRequest /data), a dict data node missing type
(BadRequest /data/type) or id (BadRequest /data/id) or carrying a type
unequal to the declared related type (InvalidType, 409); and when the data
node is a list the same per-element checks guard acceptance: the loop only
succeeds when every element is a dict with an id and the declared type, and
an offending element is rejected the same way. -/
theorem c6_relationship_body_checks (verb : RelVerb) (env : RelEnv) :
    (∀ fs, env.jsonData = .obj fs → Json.lookupField fs "data" = none →
        relationshipMutation verb env =
          ⟨.error (.api ⟨.badRequest, "/data",
            "You must provide data with a \x22data\x22 route node"⟩), [], none⟩)
    ∧ (∀ ds, env.jsonData.get? "data" = some (.obj ds) →
        Json.lookupField ds "type" = none →
        relationshipMutation verb env =
          ⟨.error (.api ⟨.badRequest, "/data/type", "Missing type in \x22data\x22 node"⟩),
           [], none⟩)
    ∧ (∀ ds tv, env.jsonData.get? "data" = some (.obj ds) →
        Json.lookupField ds "type" = some tv → Json.lookupField ds "id" = none →
        relationshipMutation verb env =
          ⟨.error (.api ⟨.badRequest, "/data/id", "Missing id in \x22data\x22 node"⟩),
           [], none⟩)
    ∧ (∀ ds tv idv, env.jsonData.get? "data" = some (.obj ds) →
        Json.lookupField ds "type" = some tv → Json.lookupField ds "id" = some idv →
        pyNeqStr tv env.relatedType = true →
        relationshipMutation verb env =
          ⟨.error (.api ⟨.invalidType, "/data/type",
            "The type field does not match the resource type"⟩), [], none⟩
        ∧ ErrorKind.invalidType.status = 409)
    ∧ (∀ elems, env.jsonData.get? "data" = some (.arr elems) →
        validateRelBody env.relatedType env.jsonData = .ok () →
        ∀ e ∈ elems, ∃ efs, e = Json.obj efs
          ∧ Json.lookupField efs "type" = some (.str env.relatedType)
          ∧ (Json.lookupField efs "id").isSome = true)
    ∧ (∀ efs rest, env.jsonData.get? "data" = some (.arr (Json.obj efs :: rest)) →
        Json.lookupField efs "type" = none →
        relationshipMutation verb env =
          ⟨.error (.api ⟨.badRequest, "/data/type", "Missing type in \x22data\x22 node"⟩),
           [], none⟩) := by
  refine ⟨?_, ?_, ?_, ?_, ?_, ?_⟩
  · intro fs hj hd
    simp [relationshipMutation, validateRelBody, pyContains, Json.hasKey, Json.get?, hj, hd]
  · intro ds h hT
    obtain ⟨jfs, hj, hd⟩ := exists_obj_of_get?_eq_some h
    simp [relationshipMutation, validateRelBody, pyContains, pySubscript, Json.hasKey,
          Json.get?, hj, hd, hT]
  · intro ds tv h hT hI
    obtain ⟨jfs, hj, hd⟩ := exists_obj_of_get?_eq_some h
    simp [relationshipMutation, validateRelBody, pyContains, pySubscript, Json.hasKey,
          Json.get?, hj, hd, hT, hI]
  · intro ds tv idv h hT hI hne
    obtain ⟨jfs, hj, hd⟩ := exists_obj_of_get?_eq_some h
    refine ⟨?_, rfl⟩
    simp [relationshipMutation, validateRelBody, pyContains, pySubscript, Json.hasKey,
          Json.get?, hj, hd, hT, hI, hne]
  · intro elems h hvalid
    obtain ⟨jfs, hj, hd⟩ := exists_obj_of_get?_eq_some h
    rw [hj] at hvalid
    simp [validateRelBody, pyContains, pySubscript, Json.hasKey, Json.get?, hd] at hvalid
    exact validateRelList_ok_elements env.relatedType elems hvalid
  · intro efs rest h hT
    obtain ⟨jfs, hj, hd⟩ := exists_obj_of_get?_eq_some h
    simp [relationshipMutation, validateRelBody, validateRelList, validateRelElement,
          pyContains, pySubscript, Json.hasKey, Json.get?, hj, hd, hT]

/-- C6 witness: a relationship add whose data carries type comments against
a relationship declared for people is rejected with InvalidType before any
storage call. -/
theorem c6_relationship_body_checks_witness :
    relationshipMutation .post
        ⟨.obj [("data", .obj [("type", .str "comments"), ("id", .str "1")])], "people",
         "author", [], true, fun _ => .obj [], "/people/1/relationships/author"⟩ =
      ⟨.error (.api ⟨.invalidType, "/data/type",
        "The type field does not match the resource type"⟩), [], none⟩ :=
  ((c6_relationship_body_checks .post
      ⟨.obj [("data", .obj [("type", .str "comments"), ("id", .str "1")])], "people",
       "author", [], true, fun _ => .obj [], "/people/1/relationships/author"⟩).2.2.2.1
    [("type", .str "comments"), ("id", .str "1")] (.str "comments") (.str "1")
    rfl rfl rfl (by decide)).1

/-- Under a valid body, every relationship mutation makes exactly its one
storage call, carrying the raw request payload. -/
theorem relationshipMutation_calls_of_valid (verb : RelVerb) (env : RelEnv)
    (hvalid : validateRelBody env.relatedType env.jsonData = .ok ()) :
    (relationshipMutation verb env).calls = [relStorageCall verb env.jsonData] := by
  cases verb
  case delete =>
      cases hrw : selfLinkRewrite env.requestPath
          (env.dump (relIncludes env.qsInclude env.relationshipField)) <;>
        simp [relationshipMutation, hvalid, hrw]
  case post =>
      cases hch : env.storageChanged
      · simp [relationshipMutation, hvalid, hch]
      · cases hrw : selfLinkRewrite env.requestPath
            (env.dump (relIncludes env.qsInclude env.relationshipField)) <;>
          simp [relationshipMutation, hvalid, hch, hrw]
  case patch =>
      cases hch : env.storageChanged
      · simp [relationshipMutation, hvalid, hch]
      · cases hrw : selfLinkRewrite env.requestPath
            (env.dump (relIncludes env.qsInclude env.relationshipField)) <;>
          simp [relationshipMutation, hvalid, hch, hrw]

/-- C7: for relationship mutations with a valid body, the schema is always
configured with the relationship field forced into the include list; add and
replace return 204 with an empty body when the storage layer reports nothing
changed and the serialized owner with 200 otherwise; remove returns the
serialized owner with status 200 exactly when something changed and 204
otherwise; and serialization rewrites a present non-null self link to the
literal request path. -/
theorem c7_relationship_mutation_responses (verb : RelVerb) (env : RelEnv)
    (hvalid : validateRelBody env.relatedType env.jsonData = .ok ()) :
    (relationshipMutation verb env).includesUsed =
      some (relIncludes env.qsInclude env.relationshipField)
    ∧ env.relationshipField ∈ relIncludes env.qsInclude env.relationshipField
    ∧ (verb = .post ∨ verb = .patch → env.storageChanged = false →
        (relationshipMutation verb env).result = .ok (.withStatus (.str "") 204))
    ∧ (∀ res, verb = .delete →
        selfLinkRewrite env.requestPath
            (env.dump (relIncludes env.qsInclude env.relationshipField)) = .ok res →
        (relationshipMutation verb env).result =
          .ok (.withStatus res (if env.storageChanged then 200 else 204)))
    ∧ (∀ res, verb = .post ∨ verb = .patch → env.storageChanged = true →
        selfLinkRewrite env.requestPath
            (env.dump (relIncludes env.qsInclude env.relationshipField)) = .ok res →
        (relationshipMutation verb env).result = .ok (.withStatus res 200))
    ∧ (∀ d lfs v p, d.get? "links" = some (.obj lfs) →
        Json.lookupField lfs "self" = some v → v ≠ .null →
        ((selfLinkRewrite p d).toOption.bind
            (fun d' => (d'.get? "links").bind (fun l => l.get? "self"))) =
          some (.str p)) := by
  refine ⟨?_, ?_, ?_, ?_, ?_, ?_⟩
  · cases verb
    case delete =>
        cases hrw : selfLinkRewrite env.requestPath
            (env.dump (relIncludes env.qsInclude env.relationshipField)) <;>
          simp [relationshipMutation, hvalid, hrw]
    case post =>
        cases hch : env.storageChanged
        · simp [relationshipMutation, hvalid, hch]
        · cases hrw : selfLinkRewrite env.requestPath
              (env.dump (relIncludes env.qsInclude env.relationshipField)) <;>
            simp [relationshipMutation, hvalid, hch, hrw]
    case patch =>
        cases hch : env.storageChanged
        · simp [relationshipMutation, hvalid, hch]
        · cases hrw : selfLinkRewrite env.requestPath
              (env.dump (relIncludes env.qsInclude env.relationshipField)) <;>
            simp [relationshipMutation, hvalid, hch, hrw]
  · by_cases hmem : env.relationshipField ∈ env.qsInclude
    · simp [relIncludes, hmem]
    · simp [relIncludes, hmem]
  · rintro (rfl | rfl) hch <;> simp [relationshipMutation, hvalid, hch]
  · rintro res rfl hrw
    simp [relationshipMutation, hvalid, hrw]
  · rintro res (rfl | rfl) hch hrw <;> simp [relationshipMutation, hvalid, hch, hrw]
  · intro d lfs v p hl hs hv
    obtain ⟨dfs, rfl, hl'⟩ := exists_obj_of_get?_eq_some hl
    cases v
    case null => exact absurd rfl hv
    all_goals
      simp [selfLinkRewrite, Json.get?, Json.set, hl', hs, Except.toOption,
            lookupField_setField_self]

/-- C7 witness: an add whose storage call reports no change returns 204 with
an empty body. -/
theorem c7_relationship_mutation_responses_witness :
    (relationshipMutation .post
        ⟨.obj [("data", .obj [("type", .str "people"), ("id", .str "1")])], "people",
         "author", [], false, fun _ => .obj [], "/p/1/relationships/author"⟩).result =
      .ok (.withStatus (.str "") 204) :=
  (c7_relationship_mutation_responses .post
      ⟨.obj [("data", .obj [("type", .str "people"), ("id", .str "1")])], "people",
       "author", [], false, fun _ => .obj [], "/p/1/relationships/author"⟩
      rfl).2.2.1 (Or.inl rfl) rfl

/-- C10: a relationship mutation whose data value is neither a dict nor a
list — a string, number, bool or null — passes the whole validation block
untouched and hands the unvalidated payload directly to the storage
relationship call. -/
theorem c10_nondict_nonlist_data_skips_validation (verb : RelVerb) (env : RelEnv)
    (fs : List (String × Json)) (v : Json)
    (hjson : env.jsonData = .obj fs)
    (hdata : Json.lookupField fs "data" = some v)
    (hdict : v.isDict = false) (hlist : v.isList = false) :
    validateRelBody env.relatedType env.jsonData = .ok ()
    ∧ (relationshipMutation verb env).calls = [relStorageCall verb env.jsonData] := by
  have hvalid : validateRelBody env.relatedType env.jsonData = .ok () := by
    cases v with
    | obj os => simp [Json.isDict] at hdict
    | arr es => simp [Json.isList] at hlist
    | null =>
        simp [validateRelBody, pyContains, pySubscript, Json.hasKey, Json.get?, hjson, hdata]
    | bool b =>
        simp [validateRelBody, pyContains, pySubscript, Json.hasKey, Json.get?, hjson, hdata]
    | num n =>
        simp [validateRelBody, pyContains, pySubscript, Json.hasKey, Json.get?, hjson, hdata]
    | str s =>
        simp [validateRelBody, pyContains, pySubscript, Json.hasKey, Json.get?, hjson, hdata]
  exact ⟨hvalid, relationshipMutation_calls_of_valid verb env hvalid⟩

/-- C10 witness: a data value that is a bare string flows through to the
storage call unvalidated. -/
theorem c10_nondict_nonlist_data_skips_validation_witness :
    (relationshipMutation .post
        ⟨.obj [("data", .str "weird")], "people", "author", [], true,
         fun _ => .obj [], "/p"⟩).calls =
      [.createRelationship (.obj [("data", .str "weird")])] :=
  (c10_nondict_nonlist_data_skips_validation .post
      ⟨.obj [("data", .str "weird")], "people", "author", [], true,
       fun _ => .obj [], "/p"⟩
      [("data", .str "weird")] (.str "weird") rfl rfl rfl rfl).2

end FlaskRestJsonApi
